import Mathlib

set_option maxRecDepth 4000

/-!
Shallow embedding of src/src/main.cpp of the sqlsqrt repository: the
paginated fetch loop (fetchAndPrintResults), the per-cell value formatting,
the line-continuation accumulator, the per-logical-line dispatch of the REPL
main loop, and the startup sequence of main.
-/

/-- Result of one invocation of fetchAndPrintResults (main.cpp lines 55-135).
Rows are kept abstract (type parameter): the per-cell formatting is modelled
separately by formatValue. Fields: displayed is the list of rows added to the
table, printedCount the number printed as "Fetched N rows", noRows is true
when the very first stmt.fetch() produced no row ("No rows returned" path),
wasExhausted is the boolean return value of the function, fetchFailed records
whether any stmt.fetch() call of this invocation failed to produce a row, and
remaining is the list of rows a later invocation can still advance to. -/
structure FetchResult (α : Type) where
  displayed : List α
  printedCount : Nat
  noRows : Bool
  wasExhausted : Bool
  fetchFailed : Bool
  remaining : List α
deriving DecidableEq, Repr

/-- The while loop of fetchAndPrintResults (main.cpp lines 74-132):
while (resCounter < maxResults) the current row (already advanced to) is added
to the table; then stmt.fetch() advances to the next row; if that fetch fails
wasExhaused is set and the loop breaks, otherwise resCounter is incremented.
The row held in current when the loop exits by the counter condition has been
advanced to but is never displayed, and the next invocation begins with a
further stmt.fetch(), so that row is lost: remaining is the list after it. -/
def fetchLoop {α : Type} (current : α) (rest : List α) (resCounter maxResults : Nat)
    (displayed : List α) : FetchResult α :=
  match rest with
  | [] =>
    if resCounter < maxResults then
      { displayed := displayed ++ [current], printedCount := resCounter, noRows := false,
        wasExhausted := true, fetchFailed := true, remaining := [] }
    else
      { displayed := displayed, printedCount := resCounter, noRows := false,
        wasExhausted := false, fetchFailed := false, remaining := [] }
  | next :: rest2 =>
    if resCounter < maxResults then
      fetchLoop next rest2 (resCounter + 1) maxResults (displayed ++ [current])
    else
      { displayed := displayed, printedCount := resCounter, noRows := false,
        wasExhausted := false, fetchFailed := false, remaining := next :: rest2 }

/-- fetchAndPrintResults (main.cpp lines 55-135) on a statement whose stream of
rows still to be advanced to is rows. The initial stmt.fetch() (line 56) either
hits the "No rows returned" path, returning false, or advances to the first
row, after which the loop runs with resCounter = 1. -/
def fetchAndPrintResults {α : Type} (rows : List α) (maxResults : Nat) : FetchResult α :=
  match rows with
  | [] =>
    { displayed := [], printedCount := 0, noRows := true,
      wasExhausted := false, fetchFailed := true, remaining := [] }
  | current :: rest => fetchLoop current rest 1 maxResults []

/-- The native type tags handled by the switch of main.cpp lines 84-118. -/
inductive NativeType where
  | boolean
  | bytes
  | double
  | int64
  | uint64
  | float
  | timestamp
  | other
deriving DecidableEq, Repr

/-- The fields of dpiTimestamp used at main.cpp lines 105-113. -/
structure DpiTimestamp where
  year : Int
  month : Int
  day : Int
  hour : Int
  minute : Int
  second : Int
  fsecond : Int
  tzHourOffset : Int
deriving DecidableEq, Repr

/-- A column value as read at main.cpp line 78: a null marker, a native type
tag, and the typed payload buffers. The double and float payloads are kept as
their fmt-rendered decimal strings, since floating-point formatting is done by
the external fmt library; no claim depends on the numeric rendering itself. -/
structure CellValue where
  isNull : Bool
  nativeType : NativeType
  boolVal : Bool
  bytesVal : String
  doubleRepr : String
  floatRepr : String
  intVal : Int
  uintVal : Nat
  ts : DpiTimestamp
deriving DecidableEq, Repr

/-- The per-cell formatting of main.cpp lines 79-118. The code first assigns
colValueStr = "<null>" when the null marker is set (line 82), but the switch
that follows has no guard: every arm, including the default arm, assigns
colValueStr again, so the null assignment is dead and the result is always the
type-arm rendering. The dead assignment is kept here as an unused binding. -/
def formatValue (v : CellValue) : String :=
  let _colValueStrAfterNullCheck : String := if v.isNull then "<null>" else ""
  match v.nativeType with
  | NativeType.boolean => if v.boolVal then "TRUE" else "FALSE"
  | NativeType.bytes => "\"" ++ v.bytesVal ++ "\""
  | NativeType.double => v.doubleRepr
  | NativeType.int64 => toString v.intVal
  | NativeType.uint64 => toString v.uintVal
  | NativeType.float => v.floatRepr
  | NativeType.timestamp =>
      toString v.ts.year ++ "-" ++ toString v.ts.month ++ "-" ++ toString v.ts.day
        ++ " " ++ toString v.ts.hour ++ ":" ++ toString v.ts.minute ++ ":"
        ++ toString v.ts.second ++ "." ++ toString v.ts.fsecond
        ++ " Z" ++ toString v.ts.tzHourOffset
  | NativeType.other => "unsupported type"

/-- One raw line handled by the loop body of main.cpp lines 215-229, acting on
the pending accumulation buffer (lineBuilder). Lines are lists of characters.
The code inspects line.back(), the last character of the line, without first
checking that the line is nonempty; on the empty line this is
std::string_view::back() on an empty view, which has no defined result, so the
step is modelled as none there. Otherwise: a trailing backslash is stripped
and the remainder appended to the buffer with no logical line produced; any
other line is appended and the concatenated logical line is produced, with the
buffer reset to empty (lines 228-229). -/
def lineStep (pending : List Char) (line : List Char) :
    Option (List Char × Option (List Char)) :=
  match line.getLast? with
  | none => none
  | some c =>
    if c = '\\' then some (pending ++ line.dropLast, none)
    else some ([], some (pending ++ line))

/-- Feeding a sequence of raw lines through lineStep, starting from a given
pending buffer: returns the final buffer and the logical lines produced, in
order, or none when some step is undefined. -/
def feedLines (pending : List Char) : List (List Char) → Option (List Char × List (List Char))
  | [] => some (pending, [])
  | l :: ls =>
    match lineStep pending l with
    | none => none
    | some (p2, produced) =>
      match feedLines p2 ls with
      | none => none
      | some (pEnd, outs) => some (pEnd, produced.toList ++ outs)

/-- An OracleException as caught at main.cpp lines 260 and 270: a context
string and a message. -/
structure OracleError where
  context : String
  message : String
deriving DecidableEq, Repr

/-- The per-iteration mutable state of the REPL loop of main (line 206 and the
linenoise history): the optional active statement, represented by the list of
rows its result set can still advance to, and the in-memory history list. -/
structure SessionState (α : Type) where
  active : Option (List α)
  history : List String
deriving DecidableEq, Repr

/-- What a single loop iteration prints, abstracted. -/
inductive Output (α : Type) where
  | noRowsReturned
  | tablePrinted (rows : List α) (fetchedCount : Nat)
  | noActiveStatement
  | errMsg (e : OracleError)
deriving DecidableEq, Repr

/-- How one iteration of the loop of main ends: proceed to the next prompt,
leave the loop normally (the break at line 236), or propagate an uncaught
OracleException out of the loop to the catch at line 270 (exit code 1). -/
inductive StepResult (α : Type) where
  | cont (s : SessionState α)
  | exitLoop (s : SessionState α)
  | fatal (e : OracleError) (s : SessionState α)
deriving DecidableEq, Repr

/-- The session state carried by a step result. -/
def StepResult.state {α : Type} : StepResult α → SessionState α
  | StepResult.cont s => s
  | StepResult.exitLoop s => s
  | StepResult.fatal _ s => s

/-- Whether the step result is an uncaught propagation out of the loop. -/
def StepResult.isFatal {α : Type} : StepResult α → Bool
  | StepResult.fatal _ _ => true
  | _ => false

/-- The behavior of the Oracle driver for the calls a single dispatched line
can make: the outcome of prepareStatement, the outcome of execute (its result
set on success), whether a stmt.fetch() call raises during this dispatch, and
the outcome of the whole describe flow (the catalog result set on success). -/
structure DriverBehavior (α : Type) where
  prepare : Except OracleError Unit
  execute : Except OracleError (List α)
  fetch : Option OracleError
  describeRes : Except OracleError (List α)

/-- Whether an Except value is a success. -/
def exceptIsOk {ε σ : Type} : Except ε σ → Bool
  | Except.ok _ => true
  | Except.error _ => false

/-- The .it branch of main.cpp lines 237-246. With no active statement it
prints "No active statement" and continues. Otherwise it calls
fetchAndPrintResults outside of any try block, so a driver error there
propagates out of the loop. On a normal return the statement is cleared
exactly when the returned flag is FALSE, that is when the page was not
exhausted, and kept when it was exhausted. -/
def itBranch {α : Type} (s : SessionState α) (d : DriverBehavior α) :
    StepResult α × List (Output α) :=
  match s.active with
  | none => (StepResult.cont s, [Output.noActiveStatement])
  | some rows =>
    match d.fetch with
    | some e => (StepResult.fatal e s, [])
    | none =>
      let r := fetchAndPrintResults rows 20
      let out := if r.noRows then [Output.noRowsReturned]
                 else [Output.tablePrinted r.displayed r.printedCount]
      if r.wasExhausted then
        (StepResult.cont { s with active := some r.remaining }, out)
      else
        (StepResult.cont { s with active := none }, out)

/-- The .describe branch of main.cpp lines 247-251: describeTable is invoked
outside of any try block, so a driver error propagates out of the loop; on
success it pages with maxResults = INT_MAX via fetchAndPrintResults, then the
full line is added to history. The active statement of the session is not
touched by this branch (describeTable uses a local statement). -/
def describeBranch {α : Type} (s : SessionState α) (fullLine : String)
    (d : DriverBehavior α) : StepResult α × List (Output α) :=
  match d.describeRes with
  | Except.error e => (StepResult.fatal e s, [])
  | Except.ok rows =>
    let r := fetchAndPrintResults rows 2147483647
    let out := if r.noRows then [Output.noRowsReturned]
               else [Output.tablePrinted r.displayed r.printedCount]
    (StepResult.cont { s with history := s.history ++ [fullLine] }, out)

/-- The SQL branch of main.cpp lines 254-262, the only code of the loop inside
a try block. prepareStatement assigns activeStatement on success; a throw from
prepare leaves the previous active statement in place. execute then runs; a
throw from it is caught with the freshly prepared, never-executed statement
left assigned (it has produced no result set, so its remaining-row list is
empty). On success the line is added to history (line 257) before the first
page is fetched, so a throw from the fetch leaves the history entry in place
and the statement assigned with its rows not yet consumed. The boolean result
of the first-page fetch is ignored (line 258): the statement stays active with
the remaining rows of the page regardless of exhaustion. -/
def sqlBranch {α : Type} (s : SessionState α) (fullLine : String)
    (d : DriverBehavior α) : StepResult α × List (Output α) :=
  match d.prepare with
  | Except.error e => (StepResult.cont s, [Output.errMsg e])
  | Except.ok _ =>
    match d.execute with
    | Except.error e => (StepResult.cont { s with active := some [] }, [Output.errMsg e])
    | Except.ok rows =>
      match d.fetch with
      | some e =>
        (StepResult.cont { s with active := some rows, history := s.history ++ [fullLine] },
         [Output.errMsg e])
      | none =>
        let r := fetchAndPrintResults rows 20
        let out := if r.noRows then [Output.noRowsReturned]
                   else [Output.tablePrinted r.displayed r.printedCount]
        (StepResult.cont { s with active := some r.remaining,
                                  history := s.history ++ [fullLine] }, out)

/-- The test of main.cpp line 247: fullLine.find(".describe ") == 0, that is,
the first occurrence of ".describe " is at position 0, which holds exactly
when the line starts with ".describe ". Stated over the character data of the
line. -/
def startsWithDescribe (line : String) : Bool :=
  List.isPrefixOf ".describe ".data line.data

/-- The dispatch of one completed logical line, main.cpp lines 231-262: an
empty line is discarded; ".exit" leaves the loop; ".it" continues the active
fetch; a line starting with ".describe " runs the describe flow; anything
else is treated as SQL. -/
def dispatchLine {α : Type} (s : SessionState α) (fullLine : String)
    (d : DriverBehavior α) : StepResult α × List (Output α) :=
  if fullLine = "" then (StepResult.cont s, [])
  else if fullLine = ".exit" then (StepResult.exitLoop s, [])
  else if fullLine = ".it" then itBranch s d
  else if startsWithDescribe fullLine then describeBranch s fullLine d
  else sqlBranch s fullLine d

/-- Whether a logical line falls through to the SQL branch of the dispatch. -/
def isSqlPath (line : String) : Bool :=
  !(line == "") && !(line == ".exit") && !(line == ".it")
    && !(startsWithDescribe line)

/-- The observable actions of main before the REPL loop, lines 161-209. -/
inductive StartupEvent where
  | printUsage
  | loadHistory (path : String)
  | promptPassword
  | setHistoryMaxLen (n : Int)
  | connect
  | replLoop
deriving DecidableEq, Repr

/-- The startup sequence of main (lines 170-209) as a function of the parsed
flags: with the help flag the usage text is printed and execution falls
through; the history file is loaded from the given path, else from
HOME/.sqlplusplus_history when HOME is set; the password is prompted for,
under the linenoise mask guard, exactly when no password flag was given; the
history maximum length is the given value, defaulting to 10000; then the
connection is made and the REPL loop entered. -/
def startupEvents (help : Bool) (historyFile home password : Option String)
    (maxHistory : Option Int) : List StartupEvent :=
  (if help then [StartupEvent.printUsage] else []) ++
  (match historyFile, home with
   | some p, _ => [StartupEvent.loadHistory p]
   | none, some h => [StartupEvent.loadHistory (h ++ "/.sqlplusplus_history")]
   | none, none => []) ++
  (match password with
   | some _ => []
   | none => [StartupEvent.promptPassword]) ++
  [StartupEvent.setHistoryMaxLen (match maxHistory with | some n => n | none => 10000)] ++
  [StartupEvent.connect, StartupEvent.replLoop]

/-- A session with no active statement and empty history. -/
def s0 : SessionState Nat := { active := none, history := [] }

/-- A session holding an active statement with the given remaining rows. -/
def sActive (rows : List Nat) : SessionState Nat := { active := some rows, history := [] }

/-- A driver that succeeds everywhere, with the given result set. -/
def dOk (rows : List Nat) : DriverBehavior Nat :=
  { prepare := Except.ok (), execute := Except.ok rows,
    fetch := none, describeRes := Except.ok [] }

/-- A concrete driver error. -/
def e0 : OracleError := { context := "stmt", message := "driver failure" }

/-- A driver whose stmt.fetch() raises. -/
def dFetchErr : DriverBehavior Nat :=
  { prepare := Except.ok (), execute := Except.ok [],
    fetch := some e0, describeRes := Except.ok [] }

/-- A driver whose prepareStatement raises. -/
def dPrepErr : DriverBehavior Nat :=
  { prepare := Except.error e0, execute := Except.ok [],
    fetch := none, describeRes := Except.ok [] }

/-- A driver whose describe flow raises. -/
def dDescErr : DriverBehavior Nat :=
  { prepare := Except.ok (), execute := Except.ok [],
    fetch := none, describeRes := Except.error e0 }

/-- A null-marked cell with the given native type tag. -/
def nullCell (t : NativeType) : CellValue :=
  { isNull := true, nativeType := t, boolVal := false, bytesVal := "abc",
    doubleRepr := "1.5", floatRepr := "2.5", intVal := 0, uintVal := 0,
    ts := { year := 0, month := 0, day := 0, hour := 0, minute := 0,
            second := 0, fsecond := 0, tzHourOffset := 0 } }

/-- The wasExhausted flag computed by the fetch loop always equals its
fetchFailed trace, and the loop never takes the "No rows returned" path. -/
theorem fetchLoop_flags {α : Type} (rest : List α) : ∀ (c : α) (k m : Nat) (disp : List α),
    ((fetchLoop c rest k m disp).wasExhausted = (fetchLoop c rest k m disp).fetchFailed)
    ∧ (fetchLoop c rest k m disp).noRows = false := by
  induction rest with
  | nil =>
    intro c k m disp
    rw [fetchLoop]
    split <;> simp
  | cons x xs ih =>
    intro c k m disp
    rw [fetchLoop]
    split
    · exact ih x (k + 1) m (disp ++ [c])
    · simp

/-- Feeding continuation fragments and then a nonempty non-continued line,
starting from any pending buffer, produces exactly one logical line: the
buffer followed by the stripped fragments and the final line; the buffer ends
empty. -/
theorem feedLines_run (m : List Char) (hm : m ≠ []) (hm2 : m.getLast? ≠ some '\\') :
    ∀ (fs : List (List Char)) (pending : List Char),
      (∀ f ∈ fs, f.getLast? = some '\\') →
      feedLines pending (fs ++ [m]) =
        some ([], [pending ++ ((fs.map List.dropLast).flatten ++ m)]) := by
  intro fs
  induction fs with
  | nil =>
    intro pending _
    obtain ⟨c, hc⟩ := Option.isSome_iff_exists.mp (List.getLast?_isSome.mpr hm)
    have hcne : ¬(c = '\\') := fun h => hm2 (by rw [hc, h])
    simp [feedLines, lineStep, hc, hcne]
  | cons f fs2 ih =>
    intro pending hall
    have hf : f.getLast? = some '\\' := hall f (List.mem_cons_self f fs2)
    have ihh := ih (pending ++ f.dropLast) (fun g hg => hall g (List.mem_cons_of_mem f hg))
    simp only [List.cons_append, feedLines, lineStep, hf, if_true, List.append_eq]
    rw [ihh]
    simp [List.append_assoc]

/-- The .it branch propagates an exception exactly when there is an active
statement and the fetch call raises. -/
theorem itBranch_fatal {α : Type} (s : SessionState α) (d : DriverBehavior α) :
    ((itBranch s d).1.isFatal = true) ↔ (s.active.isSome = true ∧ d.fetch.isSome = true) := by
  rcases hs : s.active with _ | rows
  · simp [itBranch, hs, StepResult.isFatal]
  · rcases hd : d.fetch with _ | e
    · simp only [itBranch, hs, hd]
      split <;> simp [StepResult.isFatal, hd]
    · simp [itBranch, hs, hd, StepResult.isFatal]

/-- The describe branch propagates an exception exactly when the describe flow
raises. -/
theorem describeBranch_fatal {α : Type} (s : SessionState α) (line : String)
    (d : DriverBehavior α) :
    ((describeBranch s line d).1.isFatal = true) ↔ (exceptIsOk d.describeRes = false) := by
  rcases hd : d.describeRes with e | rows <;>
    simp [describeBranch, hd, StepResult.isFatal, exceptIsOk]

/-- The SQL branch always continues to the next prompt: all its driver errors
are caught by the try block of main.cpp lines 254-262. -/
theorem sqlBranch_cont {α : Type} (s : SessionState α) (line : String)
    (d : DriverBehavior α) : ∃ s2, (sqlBranch s line d).1 = StepResult.cont s2 := by
  rcases hp : d.prepare with e | u
  · exact ⟨s, by simp [sqlBranch, hp]⟩
  · rcases he : d.execute with e | rows
    · exact ⟨{ s with active := some [] }, by simp [sqlBranch, hp, he]⟩
    · rcases hf : d.fetch with _ | e
      · exact ⟨{ s with active := some (fetchAndPrintResults rows 20).remaining,
                        history := s.history ++ [line] }, by simp [sqlBranch, hp, he, hf]⟩
      · exact ⟨{ s with active := some rows, history := s.history ++ [line] },
               by simp [sqlBranch, hp, he, hf]⟩

/-- The SQL branch never propagates an exception. -/
theorem sqlBranch_not_fatal {α : Type} (s : SessionState α) (line : String)
    (d : DriverBehavior α) : (sqlBranch s line d).1.isFatal = false := by
  obtain ⟨s2, h⟩ := sqlBranch_cont s line d
  rw [h]
  rfl

/-- The .it branch never changes the history. -/
theorem itBranch_history {α : Type} (s : SessionState α) (d : DriverBehavior α) :
    (itBranch s d).1.state.history = s.history := by
  rcases hs : s.active with _ | rows
  · simp [itBranch, hs, StepResult.state]
  · rcases hd : d.fetch with _ | e
    · simp only [itBranch, hs, hd]
      split <;> rfl
    · simp [itBranch, hs, hd, StepResult.state]

/-- The describe branch records the line in history exactly when the describe
flow succeeds. -/
theorem describeBranch_history {α : Type} (s : SessionState α) (line : String)
    (d : DriverBehavior α) :
    (describeBranch s line d).1.state.history =
      (if exceptIsOk d.describeRes then s.history ++ [line] else s.history) := by
  rcases hd : d.describeRes with e | rows <;>
    simp [describeBranch, hd, StepResult.state, exceptIsOk]

/-- The SQL branch records the line in history exactly when both prepare and
execute succeed, regardless of the outcome of the first-page fetch. -/
theorem sqlBranch_history {α : Type} (s : SessionState α) (line : String)
    (d : DriverBehavior α) :
    (sqlBranch s line d).1.state.history =
      (if exceptIsOk d.prepare && exceptIsOk d.execute then s.history ++ [line]
       else s.history) := by
  rcases hp : d.prepare with e | u
  · simp [sqlBranch, hp, StepResult.state, exceptIsOk]
  · rcases he : d.execute with e2 | rows
    · simp [sqlBranch, hp, he, StepResult.state, exceptIsOk]
    · rcases hf : d.fetch with _ | e3 <;>
        simp [sqlBranch, hp, he, hf, StepResult.state, exceptIsOk]

/-- A line that is not empty, not ".exit", not ".it" and does not start with
".describe " is dispatched to the SQL branch. -/
theorem dispatchLine_sql {α : Type} (s : SessionState α) (line : String)
    (d : DriverBehavior α) (h1 : ¬(line = "")) (h2 : ¬(line = ".exit"))
    (h3 : ¬(line = ".it")) (h4 : startsWithDescribe line = false) :
    dispatchLine s line d = sqlBranch s line d := by
  rw [dispatchLine, if_neg h1, if_neg h2, if_neg h3, if_neg (by simp [h4])]

/-- Unpacking the SQL-path predicate into its four conditions. -/
theorem isSqlPath_elim (line : String) (h : isSqlPath line = true) :
    ¬(line = "") ∧ ¬(line = ".exit") ∧ ¬(line = ".it") ∧ startsWithDescribe line = false := by
  simp only [isSqlPath, Bool.and_eq_true, Bool.not_eq_true', beq_eq_false_iff_ne,
    ne_eq] at h
  exact ⟨h.1.1.1, h.1.1.2, h.1.2, h.2⟩

/-- Claim C1. The claim states that the ActiveStatement is destroyed exactly
when the result set is exhausted, and that a size-0 result set leaves no
ActiveStatement. The code does the opposite: the SQL path at main.cpp line 258
ignores the boolean result of the first-page fetch, so an empty result set
leaves the statement active; and the .it path at line 243 clears the statement
when the returned flag is false, that is exactly when the page was NOT
exhausted, and keeps it when it was exhausted. Evaluated here at concrete
inputs: a submitted statement with 0 rows stays active; .it on a statement
with 25 remaining rows (page not exhausted) clears it; .it on a statement with
3 remaining rows (exhausted) keeps it. -/
theorem c1_active_statement_retention :
    ((dispatchLine s0 "select x from t" (dOk [])).1.state.active = some [])
    ∧ ((dispatchLine (sActive (List.range 25)) ".it" (dOk [])).1.state.active = none)
    ∧ ((dispatchLine (sActive [1, 2, 3]) ".it" (dOk [])).1.state.active = some []) := by
  decide

/-- Claim C2, counterexample to the claim as stated. A driver error raised
during a fetch triggered by .it is NOT caught: main.cpp line 243 calls
fetchAndPrintResults outside the try block, so the exception propagates out of
the loop and the process terminates with exit code 1, while the claim states
such an error never terminates the session. -/
theorem c2_it_fetch_error_fatal_cex :
    dispatchLine (sActive [7]) ".it" dFetchErr = (StepResult.fatal e0 (sActive [7]), []) := by
  decide

/-- Claim C2, amended: driver errors during prepare, execute or first-page
fetch of a plain SQL submission are caught and the REPL continues to the next
prompt with the error reported, but a driver error during an .it fetch or
during the .describe flow propagates out of the loop (terminating the process
with exit code 1). The dispatch of a line is fatal exactly when the line is
".it" with an active statement and a raising fetch, or a ".describe " line
with a raising describe flow; on the SQL path the dispatch always continues,
and a prepare error is reported to the error stream with the state unchanged. -/
theorem c2_error_scoping_amended {α : Type} (s : SessionState α) (line : String)
    (d : DriverBehavior α) :
    ((dispatchLine s line d).1.isFatal = true ↔
      ((line = ".it" ∧ s.active.isSome = true ∧ d.fetch.isSome = true) ∨
       (startsWithDescribe line = true ∧ exceptIsOk d.describeRes = false)))
    ∧ (isSqlPath line = true → ∃ s2, (dispatchLine s line d).1 = StepResult.cont s2)
    ∧ (isSqlPath line = true → ∀ e, d.prepare = Except.error e →
        dispatchLine s line d = (StepResult.cont s, [Output.errMsg e])) := by
  refine ⟨?_, ?_, ?_⟩
  · by_cases h1 : line = ""
    · subst h1
      simp [dispatchLine, StepResult.isFatal, (by decide : startsWithDescribe "" = false)]
    · by_cases h2 : line = ".exit"
      · subst h2
        simp [dispatchLine, StepResult.isFatal,
          (by decide : startsWithDescribe ".exit" = false)]
      · by_cases h3 : line = ".it"
        · subst h3
          rw [dispatchLine, if_neg h1, if_neg h2, if_pos rfl]
          simp [itBranch_fatal, (by decide : startsWithDescribe ".it" = false)]
        · by_cases h4 : startsWithDescribe line = true
          · rw [dispatchLine, if_neg h1, if_neg h2, if_neg h3, if_pos h4]
            simp [describeBranch_fatal, h3, h4]
          · rw [dispatchLine_sql s line d h1 h2 h3 (by simpa using h4)]
            simp [sqlBranch_not_fatal, h3, h4]
  · intro h
    obtain ⟨h1, h2, h3, h4⟩ := isSqlPath_elim line h
    rw [dispatchLine_sql s line d h1 h2 h3 h4]
    exact sqlBranch_cont s line d
  · intro h e he
    obtain ⟨h1, h2, h3, h4⟩ := isSqlPath_elim line h
    rw [dispatchLine_sql s line d h1 h2 h3 h4]
    simp [sqlBranch, he]

/-- Claim C2, witness for the amended theorem: a prepare error on a concrete
SQL line is reported and the session continues with unchanged state. -/
theorem c2_error_scoping_amended_witness :
    dispatchLine s0 "select x from t" dPrepErr = (StepResult.cont s0, [Output.errMsg e0]) :=
  (c2_error_scoping_amended s0 "select x from t" dPrepErr).2.2 (by decide) e0 rfl

/-- Claim C3. The claim states pages of exactly 20 rows with no row skipped
and all N rows observed. Evaluated on a result set of 25 rows with page size
20: the first page displays only 19 rows (rows 0 to 18) while printing
"Fetched 20 rows" and reporting not exhausted; the row at index 19 is
advanced past and lost, the next .it page displays the 5 rows 20 to 24, so 24
of the 25 rows are observed and row 19 appears on no page. -/
theorem c3_pagination_off_by_one :
    ((fetchAndPrintResults (List.range 25) 20).displayed = List.range 19)
    ∧ ((fetchAndPrintResults (List.range 25) 20).printedCount = 20)
    ∧ ((fetchAndPrintResults (List.range 25) 20).wasExhausted = false)
    ∧ ((fetchAndPrintResults (List.range 25) 20).remaining = [20, 21, 22, 23, 24])
    ∧ ((fetchAndPrintResults [20, 21, 22, 23, 24] 20).displayed = [20, 21, 22, 23, 24])
    ∧ ((fetchAndPrintResults [20, 21, 22, 23, 24] 20).wasExhausted = true)
    ∧ (19 ∉ (fetchAndPrintResults (List.range 25) 20).displayed)
    ∧ (19 ∉ (fetchAndPrintResults [20, 21, 22, 23, 24] 20).displayed) := by
  decide

/-- Claim C4. The claim states that a null cell always renders as the literal
string given in the spec and that the null check short-circuits the
type-specific rendering. In the code the null branch assigns that string but
the switch that follows is not guarded: every arm reassigns the result, so a
null cell renders through its type arm instead. Evaluated here: a null cell
with an unhandled tag renders "unsupported type", a null boolean renders
"FALSE" from its payload buffer, a null bytes cell renders its quoted buffer,
and in each case the result is not the null marker string. -/
theorem c4_null_cell_rendering :
    (formatValue (nullCell NativeType.other) = "unsupported type")
    ∧ (formatValue (nullCell NativeType.boolean) = "FALSE")
    ∧ (formatValue (nullCell NativeType.bytes) = "\"abc\"")
    ∧ (formatValue (nullCell NativeType.other) ≠ "<null>")
    ∧ (formatValue (nullCell NativeType.boolean) ≠ "<null>")
    ∧ (formatValue (nullCell NativeType.bytes) ≠ "<null>") := by
  decide

/-- Claim C5, counterexample to the claim as stated. On an empty result set
the very first advance call fails to produce a row during the invocation, yet
the returned wasExhausted flag is false (the "No rows returned" early return
of main.cpp lines 56-59), contradicting the stated iff. -/
theorem c5_exhaustion_flag_cex :
    ((fetchAndPrintResults ([] : List Nat) 20).fetchFailed = true)
    ∧ ((fetchAndPrintResults ([] : List Nat) 20).wasExhausted = false) := by
  decide

/-- Claim C5, amended: the returned wasExhausted flag is true iff an advance
call failed to produce a row during the invocation AND the invocation was not
the empty-page case; equivalently, exhaustion is reported only when the
result set ends after at least one row was produced. The empty-page outcome
("no rows returned") occurs exactly when the result set is empty, and is
observably distinct: there wasExhausted is false. -/
theorem c5_exhaustion_flag_amended {α : Type} (rows : List α) (maxResults : Nat) :
    ((fetchAndPrintResults rows maxResults).wasExhausted
      = ((fetchAndPrintResults rows maxResults).fetchFailed
          && !(fetchAndPrintResults rows maxResults).noRows))
    ∧ ((fetchAndPrintResults rows maxResults).noRows = rows.isEmpty) := by
  cases rows with
  | nil => simp [fetchAndPrintResults]
  | cons c rest =>
    have h := fetchLoop_flags rest c 1 maxResults []
    rw [fetchAndPrintResults]
    rw [h.1, h.2]
    simp

/-- Claim C6. The claim states that processing every raw line, including the
empty line, is safe and that the continuation-marker check is well-defined on
the empty line. In the code the check at main.cpp line 217 reads line.back()
with no emptiness guard; on the empty line that is std::string_view::back()
on an empty view, which has no defined result, so the accumulator step is
undefined (none) on the empty raw line. -/
theorem c6_empty_line_undefined : lineStep [] [] = none := rfl

/-- Claim C7, counterexample to the claim as stated. The claim quantifies over
any final line not ending with the continuation marker, which includes the
empty final line; but on the input sequence of the fragment "a\" followed by
the empty line, the last-character check of main.cpp line 217 is undefined,
so no logical line is produced, in particular not the concatenation "a". -/
theorem c7_continuation_concatenation_cex :
    (feedLines [] [['a', '\\'], []] = none)
    ∧ (feedLines [] [['a', '\\'], []] ≠ some ([], [['a']])) := by
  decide

/-- Claim C7, amended: for every sequence of raw lines each ending with the
continuation marker, followed by one NONEMPTY line not ending with the
marker, the produced logical line is the verbatim concatenation, in input
order, of the fragments with each trailing marker stripped, and the pending
buffer is left empty for the next accumulation. -/
theorem c7_continuation_concatenation_amended (fs : List (List Char)) (m : List Char)
    (hf : ∀ f ∈ fs, f.getLast? = some '\\') (hm : m ≠ []) (hm2 : m.getLast? ≠ some '\\') :
    feedLines [] (fs ++ [m]) = some ([], [(fs.map List.dropLast).flatten ++ m]) := by
  have h := feedLines_run m hm hm2 fs [] hf
  simpa using h

/-- Claim C7, witness for the amended theorem at the concrete fragments "a\"
and "b\" followed by the final line "c": the logical line "abc" is produced
and the buffer is cleared. -/
theorem c7_continuation_concatenation_amended_witness :
    feedLines [] ([['a', '\\'], ['b', '\\']] ++ [['c']]) =
      some ([], [(([['a', '\\'], ['b', '\\']].map List.dropLast).flatten) ++ ['c']]) :=
  c7_continuation_concatenation_amended [['a', '\\'], ['b', '\\']] ['c']
    (by decide) (by decide) (by decide)

/-- Claim C8, counterexample to the claim as stated. The claim says .describe
lines are recorded in history, but the history entry is added only after
describeTable returns (main.cpp lines 249-250): when the describe flow raises
a driver error the entry is never added (and the error is fatal), so the
history stays unchanged. -/
theorem c8_describe_history_cex :
    ((dispatchLine s0 ".describe t" dDescErr).1.state.history = [])
    ∧ ((dispatchLine s0 ".describe t" dDescErr).1.isFatal = true) := by
  decide

/-- Claim C8, amended: an SQL line is recorded in history exactly when both
prepare and execute succeed (a later fetch error does not remove the entry);
a ".describe " line is recorded exactly when the describe flow completes
without a driver error; ".exit", ".it" and the empty logical line are never
recorded. -/
theorem c8_history_recording_amended {α : Type} (s : SessionState α) (d : DriverBehavior α) :
    ((dispatchLine s ".exit" d).1.state.history = s.history)
    ∧ ((dispatchLine s ".it" d).1.state.history = s.history)
    ∧ ((dispatchLine s "" d).1.state.history = s.history)
    ∧ (∀ line : String, isSqlPath line = true →
        (dispatchLine s line d).1.state.history =
          (if exceptIsOk d.prepare && exceptIsOk d.execute then s.history ++ [line]
           else s.history))
    ∧ (∀ line : String, startsWithDescribe line = true →
        (dispatchLine s line d).1.state.history =
          (if exceptIsOk d.describeRes then s.history ++ [line] else s.history)) := by
  refine ⟨rfl, ?_, rfl, ?_, ?_⟩
  · rw [dispatchLine, if_neg (by decide), if_neg (by decide), if_pos rfl]
    exact itBranch_history s d
  · intro line h
    obtain ⟨h1, h2, h3, h4⟩ := isSqlPath_elim line h
    rw [dispatchLine_sql s line d h1 h2 h3 h4]
    exact sqlBranch_history s line d
  · intro line h
    have h1 : ¬(line = "") := by rintro rfl; exact absurd h (by decide)
    have h2 : ¬(line = ".exit") := by rintro rfl; exact absurd h (by decide)
    have h3 : ¬(line = ".it") := by rintro rfl; exact absurd h (by decide)
    rw [dispatchLine, if_neg h1, if_neg h2, if_neg h3, if_pos h]
    exact describeBranch_history s line d

/-- Claim C8, witness for the amended theorem: a successful SQL submission on
an empty session records the line in history. -/
theorem c8_history_recording_amended_witness :
    (dispatchLine s0 "select 1" (dOk [])).1.state.history = ["select 1"] := by
  have h := (c8_history_recording_amended s0 (dOk [])).2.2.2.1 "select 1" (by decide)
  simpa [s0, dOk, exceptIsOk] using h

/-- Claim C9: dispatching ".it" in a session with no active statement reports
"No active statement" and changes nothing: the step continues to the next
prompt with the very same session state (so no history entry), and the result
does not depend on the driver behavior d, so no database call is made
(main.cpp lines 237-241). -/
theorem c9_it_without_active_statement {α : Type} (s : SessionState α)
    (d : DriverBehavior α) (h : s.active = none) :
    dispatchLine s ".it" d = (StepResult.cont s, [Output.noActiveStatement]) := by
  rw [dispatchLine, if_neg (by decide), if_neg (by decide), if_pos rfl, itBranch, h]

/-- Claim C9, witness: the empty session dispatching ".it". -/
theorem c9_it_without_active_statement_witness :
    dispatchLine s0 ".it" (dOk []) = (StepResult.cont s0, [Output.noActiveStatement]) :=
  c9_it_without_active_statement s0 (dOk []) rfl

/-- Claim C10: with the help flag set, the startup sequence prints the usage
text and is otherwise unchanged: it still loads history, prompts for a
password exactly when none was supplied on the command line, connects to the
database, and enters the REPL loop (main.cpp lines 172-209, where the help
branch does not return). -/
theorem c10_help_does_not_terminate (hf home pw : Option String) (mh : Option Int) :
    (startupEvents true hf home pw mh
      = StartupEvent.printUsage :: startupEvents false hf home pw mh)
    ∧ StartupEvent.connect ∈ startupEvents true hf home pw mh
    ∧ StartupEvent.replLoop ∈ startupEvents true hf home pw mh
    ∧ (pw = none → StartupEvent.promptPassword ∈ startupEvents true hf home pw mh)
    ∧ (∀ p, hf = some p → StartupEvent.loadHistory p ∈ startupEvents true hf home pw mh) := by
  refine ⟨rfl, ?_, ?_, ?_, ?_⟩
  · simp [startupEvents]
  · simp [startupEvents]
  · rintro rfl
    simp [startupEvents]
  · rintro p rfl
    simp [startupEvents]

/-- Claim C10, witness: help given, a history file given, no password given:
usage is printed and the startup still loads history, prompts for the
password and connects. -/
theorem c10_help_does_not_terminate_witness :
    (StartupEvent.promptPassword ∈ startupEvents true (some "h") none none none)
    ∧ (StartupEvent.connect ∈ startupEvents true (some "h") none none none)
    ∧ (StartupEvent.loadHistory "h" ∈ startupEvents true (some "h") none none none) :=
  ⟨(c10_help_does_not_terminate (some "h") none none none).2.2.2.1 rfl,
   (c10_help_does_not_terminate (some "h") none none none).2.1,
   (c10_help_does_not_terminate (some "h") none none none).2.2.2.2 "h" rfl⟩
